import Mathlib

/-!
Shallow embedding of `src/backend/main.py` (Weather Activity Advisor API).

External collaborators (the weather provider, the Groq chat-completion
provider, the Deepgram transcription provider) are modelled as oracles
supplied through an `Env` record; everything else is translated directly
from the source.  Python dictionaries of known shape become structures;
a field that may be absent from a provider payload becomes an `Option`
(direct subscripting of a missing key raises `KeyError`, modelled with
`Except`).  Python exceptions are modelled with `Except String` where the
string is the `str()` rendering of the exception (for `KeyError` the
source renders quotes around the key; here it is rendered as
`KeyError: key`).  Python truthiness of strings and `Option`s is made
explicit.  Loop/trace facts that the source keeps in local variables
(number of model rounds issued, rounds on which the location-extractor
fallback was invoked, snapshots resolved so far) are carried in a `Ghost`
record that the embedded functions thread alongside their results and
that the translated return values never read.
-/

/-- HTTP exception as raised by `fastapi.HTTPException(status_code, detail)`. -/
structure HTTPError where
  status_code : Nat
  detail : String
deriving DecidableEq, Repr

/-- Python `str()` of a (starlette) HTTPException: `f"{status_code}: {detail}"`. -/
def pyStrHTTP (e : HTTPError) : String :=
  toString e.status_code ++ ": " ++ e.detail

/-- Rendering of a raised `KeyError` for key `k` (source: Python renders
`str(KeyError(k))` with quote characters around the key; the quote characters
are elided in this embedding). -/
def keyErrStr (k : String) : String := "KeyError: " ++ k

/-- Subscript a possibly-missing dictionary entry: `d[k]` raises `KeyError`
when the key is absent. -/
def dget (o : Option α) (k : String) : Except String α :=
  match o with
  | some v => .ok v
  | none => .error (keyErrStr k)

/-- The `location` sub-dictionary of a WeatherAPI payload (fields used by the
backend; each may be absent from a raw payload). -/
structure RawLocation where
  name : Option String
  country : Option String
  localtime : Option String
deriving DecidableEq, Repr

/-- The `current.condition` sub-dictionary of a WeatherAPI payload. -/
structure RawCondition where
  text : Option String
  icon : Option String
deriving DecidableEq, Repr

/-- The `current` sub-dictionary of a WeatherAPI payload.  Leaf values are
kept as strings (the backend only interpolates them into prompt text). -/
structure RawCurrent where
  temp_c : Option String
  temp_f : Option String
  condition : Option RawCondition
  feelslike_c : Option String
  humidity : Option String
  wind_kph : Option String
  wind_dir : Option String
  precip_mm : Option String
  uv : Option String
  vis_km : Option String
deriving DecidableEq, Repr

/-- A raw weather-provider payload (`weather_data` in the source).  A value
of this type models a non-empty JSON dictionary (so its Python truthiness is
true); an absent/None payload is `Option RawWeather`s `none`. -/
structure RawWeather where
  location : Option RawLocation
  current : Option RawCurrent
deriving DecidableEq, Repr

/-- Result of `format_weather_data` (source lines 106-128): the formatted
display dictionary, with the raw payload retained in `raw_data`. -/
structure FormattedWeather where
  location : String
  temperature : String
  condition : String
  icon : String
  feels_like : String
  humidity : String
  wind : String
  precipitation : String
  uv_index : String
  visibility : String
  local_time : String
  raw_data : RawWeather
deriving DecidableEq, Repr

/-- `format_weather_data(weather_data)` (source lines 106-128).  Returns
`None` for a falsy payload; otherwise subscripts each field directly, so a
missing key raises `KeyError` (propagated here as `.error`). -/
def format_weather_data (weather_data : Option RawWeather) :
    Except String (Option FormattedWeather) :=
  match weather_data with
  | none => .ok none
  | some w => do
    let location ← dget w.location "location"
    let current ← dget w.current "current"
    let name ← dget location.name "name"
    let country ← dget location.country "country"
    let temp_c ← dget current.temp_c "temp_c"
    let temp_f ← dget current.temp_f "temp_f"
    let condition ← dget current.condition "condition"
    let condText ← dget condition.text "text"
    let condIcon ← dget condition.icon "icon"
    let feelslike ← dget current.feelslike_c "feelslike_c"
    let humidity ← dget current.humidity "humidity"
    let wind_kph ← dget current.wind_kph "wind_kph"
    let wind_dir ← dget current.wind_dir "wind_dir"
    let precip ← dget current.precip_mm "precip_mm"
    let uv ← dget current.uv "uv"
    let vis ← dget current.vis_km "vis_km"
    let localtime ← dget location.localtime "localtime"
    .ok (some
      { location := name ++ ", " ++ country
        temperature := temp_c ++ "°C / " ++ temp_f ++ "°F"
        condition := condText
        icon := condIcon
        feels_like := feelslike ++ "°C"
        humidity := humidity ++ "%"
        wind := wind_kph ++ " km/h " ++ wind_dir
        precipitation := precip ++ " mm"
        uv_index := uv
        visibility := vis ++ " km"
        local_time := localtime
        raw_data := w })

/-- All dictionary keys subscripted by `format_weather_data` are present
(tested in the order the source subscripts them). -/
def hasAllFields (w : RawWeather) : Bool :=
  match w.location, w.current with
  | some loc, some curr =>
    loc.name.isSome && loc.country.isSome && curr.temp_c.isSome && curr.temp_f.isSome &&
    (match curr.condition with
     | some c => c.text.isSome && c.icon.isSome
     | none => false) &&
    curr.feelslike_c.isSome && curr.humidity.isSome && curr.wind_kph.isSome &&
    curr.wind_dir.isSome && curr.precip_mm.isSome && curr.uv.isSome &&
    curr.vis_km.isSome && loc.localtime.isSome
  | _, _ => false

/-- Whether an `Except` result is a success. -/
def isOkE : Except ε α → Bool
  | .ok _ => true
  | .error _ => false

/-- A Deepgram HTTP response as seen by `transcribe_audio_deepgram`:
the status code, the transcript parsed from the 200-response JSON body at
`results.channels[0].alternatives[0].transcript` (`none` when that path is
missing, which subscripting would turn into a `KeyError`), and the raw body
text used in the non-200 error detail. -/
structure DGResponse where
  status_code : Nat
  transcript : Option String
  text : String
deriving DecidableEq, Repr

/-- Content-type lookup table of `transcribe_audio_deepgram`
(source lines 144-158): maps a declared audio format to the MIME type sent
to Deepgram, defaulting to `audio/wav`. -/
def content_type_map : List (String × String) :=
  [("mp3", "audio/mpeg"), ("wav", "audio/wav"), ("flac", "audio/flac"),
   ("m4a", "audio/mp4"), ("ogg", "audio/ogg"), ("opus", "audio/opus"),
   ("webm", "audio/webm")]

/-- The content type header chosen for a declared audio format
(source lines 154-158). -/
def contentTypeFor (audio_format : Option String) : String :=
  match audio_format with
  | some f => (content_type_map.lookup f.toLower).getD "audio/wav"
  | none => "audio/wav"

/-- `transcribe_audio_deepgram` (source lines 131-179), with the provider
response supplied as an oracle value.  The body is wrapped in
`try/except Exception`: any exception raised inside — including the
`HTTPException(status_code=response.status_code, ...)` raised for a non-200
response — is caught and re-raised as `HTTPException(500, "Transcription
error: " + str(e))`. -/
def transcribe_audio_deepgram (resp : DGResponse) : Except HTTPError (Option String) :=
  let inner : Except String (Option String) :=
    if resp.status_code = 200 then
      match dget resp.transcript "transcript" with
      | .ok transcript => .ok (if transcript = "" then none else some transcript)
      | .error e => .error e
    else
      .error (pyStrHTTP ⟨resp.status_code, "Deepgram API Error: " ++ resp.text⟩)
  match inner with
  | .ok v => .ok v
  | .error e => .error ⟨500, "Transcription error: " ++ e⟩

/-!
`extract_location_from_query` (source lines 182-216).  The source applies
three `re.search` patterns with `re.IGNORECASE` in order.  The patterns are
reproduced here by direct matchers.  Because every continuation after a
`[A-Z][a-zA-Z]+` word in these patterns begins with a non-letter requirement
(`\s`, punctuation, or end of string), the greedy letter runs never need to
backtrack internally; the only genuine backtracking point is the optional
second word of the capture group, which is tried greedily first.  `$` is
modelled as end of input (the source has no trailing-newline queries to tell
the difference).
-/

/-- ASCII letter, the `[a-zA-Z]` class (with `re.IGNORECASE` the `[A-Z]`
class also matches exactly these characters). -/
def isPyLetter (c : Char) : Bool :=
  ('a' ≤ c && c ≤ 'z') || ('A' ≤ c && c ≤ 'Z')

/-- Python regex `\s` whitespace class (ASCII subset). -/
def isPySpace (c : Char) : Bool :=
  c = ' ' || c = '\t' || c = '\n' || c = '\x0d' || c = '\x0b' || c = '\x0c'

/-- Case-insensitive test that the lowercase literal `pat` is a prefix of
`cs`; on success returns the remaining characters. -/
def ciDrop (pat : List Char) (cs : List Char) : Option (List Char) :=
  match pat, cs with
  | [], rest => some rest
  | _ :: _, [] => none
  | p :: ps, c :: rest => if c.toLower = p then ciDrop ps rest else none

/-- Case-insensitive test that lowercase literal `pat` occurs at the head of
`cs`. -/
def ciAtHead (pat : String) (cs : List Char) : Bool :=
  (ciDrop pat.toList cs).isSome

/-- Greedy match of `[A-Z][a-zA-Z]+` under `IGNORECASE`: a run of at least
two ASCII letters; returns the word and the rest. -/
def matchWord (cs : List Char) : Option (List Char × List Char) :=
  let (w, rest) := cs.span isPyLetter
  if w.length ≥ 2 then some (w, rest) else none

/-- Greedy match of `\s+`: at least one whitespace character. -/
def matchSpaces (cs : List Char) : Option (List Char × List Char) :=
  let (sp, rest) := cs.span isPySpace
  if sp.length ≥ 1 then some (sp, rest) else none

/-- The alternatives of pattern 1s trailing group
`(?:today|tomorrow|now|should|can)`. -/
def tailKeywords : List String := ["today", "tomorrow", "now", "should", "can"]

/-- Pattern 1s tail `(?:\?|\.|,|$|\s+(?:today|tomorrow|now|should|can))`:
only whether some alternative matches is needed (the capture group is fixed
before the tail). -/
def matchTail1 (cs : List Char) : Bool :=
  match cs with
  | [] => true
  | '?' :: _ => true
  | '.' :: _ => true
  | ',' :: _ => true
  | c :: _ =>
    isPySpace c && tailKeywords.any (fun k => ciAtHead k (cs.dropWhile isPySpace))

/-- The capture group `([A-Z][a-zA-Z]+(?:\s+[A-Z][a-zA-Z]+)?)` followed by a
tail test: tries the optional second word greedily first, falling back to the
single word.  Returns the captured text and is shared by patterns 1 and 2. -/
def matchGroup (tail : List Char → Bool) (cs : List Char) : Option (List Char) :=
  match matchWord cs with
  | none => none
  | some (w1, rest1) =>
    let withSecond : Option (List Char) :=
      match matchSpaces rest1 with
      | none => none
      | some (sp, rest2) =>
        match matchWord rest2 with
        | none => none
        | some (w2, rest3) => if tail rest3 then some (w1 ++ sp ++ w2) else none
    match withSecond with
    | some g => some g
    | none => if tail rest1 then some w1 else none

/-- The preposition alternation `(?:in|at|for|to)` of pattern 1, tried in the
source order of the alternatives. -/
def prepositionList : List String := ["in", "at", "for", "to"]

/-- Pattern 1 anchored at the head of `cs`:
`(?:in|at|for|to)\s+([A-Z][a-zA-Z]+(?:\s+[A-Z][a-zA-Z]+)?)(?:\?|\.|,|$|\s+(?:today|tomorrow|now|should|can))`. -/
def p1AtPos (cs : List Char) : Option String :=
  prepositionList.findSome? fun p =>
    match ciDrop p.toList cs with
    | none => none
    | some afterPrep =>
      match matchSpaces afterPrep with
      | none => none
      | some (_, rest) => (matchGroup matchTail1 rest).map List.asString

/-- The particle alternation `(?:で|の|に|を)` of pattern 2. -/
def particleList : List Char := ['で', 'の', 'に', 'を']

/-- Pattern 2s tail `\s+(?:で|の|に|を)`. -/
def matchTail2 (cs : List Char) : Bool :=
  match matchSpaces cs with
  | none => false
  | some (_, rest) =>
    match rest with
    | [] => false
    | c :: _ => particleList.contains c

/-- Pattern 2 anchored at the head of `cs`:
`([A-Z][a-zA-Z]+(?:\s+[A-Z][a-zA-Z]+)?)\s+(?:で|の|に|を)`. -/
def p2AtPos (cs : List Char) : Option String :=
  (matchGroup matchTail2 cs).map List.asString

/-- The enumerated Japanese city alternation of pattern 3 (its capture group
is the whole alternation). -/
def jpCityList : List String :=
  ["東京", "大阪", "京都", "横浜", "名古屋", "福岡", "札幌", "仙台", "広島", "神戸"]

/-- Pattern 3 anchored at the head of `cs`. -/
def p3AtPos (cs : List Char) : Option String :=
  jpCityList.findSome? fun city =>
    if city.toList.isPrefixOf cs then some city else none

/-- `re.search`: try the anchored matcher at each position left to right. -/
def reSearch (f : List Char → Option String) : List Char → Option String
  | [] => f []
  | c :: cs =>
    match f (c :: cs) with
    | some r => some r
    | none => reSearch f cs

/-- Known major cities for validation (source lines 194-203). -/
def major_cities : List String :=
  ["tokyo", "new york", "london", "paris", "berlin", "moscow", "sydney",
   "melbourne", "toronto", "vancouver", "mumbai", "delhi", "bangalore",
   "singapore", "hong kong", "seoul", "beijing", "shanghai", "dubai",
   "istanbul", "cairo", "rio de janeiro", "sao paulo", "mexico city",
   "buenos aires", "los angeles", "chicago", "san francisco", "miami",
   "boston", "seattle", "denver", "phoenix", "dallas", "houston",
   "osaka", "kyoto", "yokohama", "nagoya", "fukuoka", "sapporo",
   "sendai", "hiroshima", "kobe"]

/-- Common non-location words filtered out (source line 211). -/
def locationStoplist : List String :=
  ["what", "should", "do", "today", "tomorrow", "wear", "activities", "i", "can"]

/-- Python `location[0].isupper()`: true when the first character is an
uppercase cased letter (CJK characters are not cased, hence false). -/
def headIsUpper (s : String) : Bool :=
  match s.toList with
  | [] => false
  | c :: _ => c.isUpper

/-- Python `str.strip()` restricted to the whitespace the candidate strings
can carry (kernel-reducible replacement for `String.trim`). -/
def pyStrip (s : String) : String :=
  ((s.toList.dropWhile isPySpace).reverse.dropWhile isPySpace).reverse.asString

/-- Python `str.lower()` on the ASCII range (kernel-reducible replacement for
`String.toLower`; the CJK candidates have no case). -/
def asciiLower (s : String) : String :=
  (s.toList.map Char.toLower).asString

/-- The per-pattern filter of `extract_location_from_query` (source lines
205-214): a pattern match is accepted when it survives the stoplist and the
minimal validity check; otherwise the source falls through to the next
pattern. -/
def extractScan : List (Option String) → Option String
  | [] => none
  | none :: rest => extractScan rest
  | some loc :: rest =>
    let location := pyStrip loc
    let location_lower := asciiLower location
    if locationStoplist.contains location_lower then extractScan rest
    else if location.length ≥ 2 &&
        (major_cities.contains location_lower || headIsUpper location) then
      some location
    else extractScan rest

/-- `extract_location_from_query(query, language)` (source lines 182-216).
The `language` parameter is accepted and unused, exactly as in the source
(the pattern list does not branch on it). -/
def extract_location_from_query (query : String) (language : String) : Option String :=
  let cs := query.toList
  extractScan [reSearch p1AtPos cs, reSearch p2AtPos cs, reSearch p3AtPos cs]

example : extract_location_from_query "hi" "en" = none := by decide
example : extract_location_from_query "What should I wear in Tokyo today?" "en" = some "Tokyo today" := by decide
example : extract_location_from_query "It is nice in Osaka." "en" = some "Osaka" := by decide

/-!
The Suggestion Orchestrator: `get_ai_suggestions` (source lines 219-457).
The Groq chat-completion provider and the weather provider are oracles in an
`Env`.  A model round result is either the assistant message of
`response.choices[0].message` or a raised exception rendered as a string.
Tool-call arguments are modelled post-`json.loads` (the `location` value of
the parsed arguments, absent when `args.get("location")` is `None`).
-/

/-- One entry of `message.tool_calls`: its `id`, `function.name` and the
`location` argument parsed from `function.arguments`. -/
structure ToolCall where
  id : String
  name : String
  args_location : Option String
deriving DecidableEq, Repr

/-- The assistant message of a model response: its text content and its
(possibly empty) tool-call list.  An empty list models a `None`/absent/empty
`tool_calls` attribute (all falsy in the source checks). -/
structure AssistantMsg where
  content : String
  tool_calls : List ToolCall
deriving DecidableEq, Repr

/-- A conversation message as appended to the `messages` list. -/
inductive Msg where
  | system (content : String)
  | user (content : String)
  | assistant (m : AssistantMsg)
  | tool (tool_call_id : String) (name : String) (content : String)
deriving DecidableEq, Repr

/-- Outcome of one `groq_client.chat.completions.create` call: a response
message, or a raised exception rendered by `str()`. -/
inductive ModelResult where
  | success (m : AssistantMsg)
  | failure (err : String)

/-- Whether a model call produced a response whose message carries at least
one tool call. -/
def ModelResult.hasTC : ModelResult → Bool
  | .success m => decide (m.tool_calls ≠ [])
  | .failure _ => false

/-- The external collaborators: the chat-completion provider (first argument
true when the `tools`/`tool_choice` parameters are offered) and the raw
weather provider (`requests.get(...).json()`, with a raised transport or
status error rendered as a string). -/
structure Env where
  model : Bool → List Msg → ModelResult
  fetchW : Option String → Except String RawWeather

/-- Trace data the source keeps only in local variables, threaded alongside
results so that theorems can speak about it: the number of model rounds
issued, the `iteration` values at which `extract_location_from_query` was
invoked, and the snapshots assigned to `final_weather_data` in order. -/
structure Ghost where
  rounds : Nat
  extractorCalls : List Nat
  resolved : List RawWeather
deriving DecidableEq, Repr

/-- `fetch_weather(location)` (source lines 95-103): any exception from the
provider request is re-raised as `HTTPException(400, "Error fetching
weather: " + str(e))`. -/
def fetch_weather (env : Env) (location : Option String) : Except HTTPError RawWeather :=
  match env.fetchW location with
  | .ok w => .ok w
  | .error cause => .error ⟨400, "Error fetching weather: " ++ cause⟩

/-- Python truthiness of an optional string (`None` and `""` are falsy). -/
def strTruthy : Option String → Bool
  | none => false
  | some s => decide (s ≠ "")

/-- Python `f"{x}"` of an optional string (`None` renders as `None`). -/
def optStr : Option String → String
  | none => "None"
  | some s => s

/-- Whether `needle` occurs as a contiguous run at any position. -/
def subOccurs (needle : List Char) : List Char → Bool
  | [] => needle.isEmpty
  | c :: rest => needle.isPrefixOf (c :: rest) || subOccurs needle rest

/-- Python `needle in hay` for strings. -/
def containsSub (needle hay : String) : Bool :=
  subOccurs needle.toList hay.toList

/-- The tool-error sniffing of source line 321:
`"tool" in str(e).lower() or "function" in str(e).lower()`. -/
def containsToolWord (e : String) : Bool :=
  containsSub "tool" (asciiLower e) || containsSub "function" (asciiLower e)

/-- The language-specific system prompt (source lines 244-259).  One source
contraction ("there is" in place of the contracted form) is written out. -/
def system_prompt (language : String) : String :=
  if language = "ja" then
    "あなたは親切な天気アドバイザーです。現在の天気に基づいて、アクティビティ、外出、ファッション、音楽、スポーツなどの提案を提供します。\n提案は具体的で、実用的で、天気条件に適切なものにしてください。\n\n重要な注意事項：\n- ユーザーが質問の中で場所（都市名）を言及した場合、その場所の天気を自動的に取得するためにget_weatherツールを使用してください。\n- セッションに既存の天気データがあっても、ユーザーが別の場所について尋ねている場合は、その場所の天気を取得してください。\n- 例：「東京で今日何をすべきか？」と聞かれたら、東京の天気を取得してください。"
  else
    "You are a helpful weather advisor. Based on current weather conditions, you provide suggestions for activities, outings, fashion, music, sports, and more.\nMake your suggestions specific, practical, and appropriate for the weather conditions.\n\nImportant notes:\n- If the user mentions a location (city name) in their query, automatically use the get_weather tool to fetch weather for that location.\n- Even if there is existing weather data in the session, if the user asks about a different location, fetch weather for that location.\n- Example: If asked \"What should I do today in Tokyo?\", fetch weather for Tokyo."

/-- The weather bullet block shared by the f-strings of source lines 266-275,
354-363, 397-406 and 431-440 (they differ only in the leading header words).
Each interpolated field is a direct subscript, so a missing key raises. -/
def weatherDetails (w : RawWeather) (header : String) : Except String String := do
  let loc ← dget w.location "location"
  let curr ← dget w.current "current"
  let name ← dget loc.name "name"
  let country ← dget loc.country "country"
  let temp_c ← dget curr.temp_c "temp_c"
  let feelslike ← dget curr.feelslike_c "feelslike_c"
  let condition ← dget curr.condition "condition"
  let condText ← dget condition.text "text"
  let humidity ← dget curr.humidity "humidity"
  let wind ← dget curr.wind_kph "wind_kph"
  let uv ← dget curr.uv "uv"
  let precip ← dget curr.precip_mm "precip_mm"
  let localtime ← dget loc.localtime "localtime"
  .ok ("\n" ++ header ++ " " ++ name ++ ", " ++ country ++ ":\n- Temperature: " ++
    temp_c ++ "°C (feels like " ++ feelslike ++ "°C)\n- Condition: " ++ condText ++
    "\n- Humidity: " ++ humidity ++ "%\n- Wind: " ++ wind ++ " km/h\n- UV Index: " ++
    uv ++ "\n- Precipitation: " ++ precip ++ " mm\n- Local time: " ++ localtime ++ "\n")

/-- The initial `weather_context` (source lines 262-275): empty for a falsy
payload, otherwise the "Current weather in" block.  Built before the
`try`, so a raise here escapes `get_ai_suggestions` itself. -/
def mkWeatherContext (weather_data : Option RawWeather) : Except String String :=
  match weather_data with
  | none => .ok ""
  | some w => weatherDetails w "Current weather in"

/-- The initial user prompt (source lines 278-287). -/
def buildPrompt (weather_context : String) (user_query : Option String)
    (language : String) : String :=
  if strTruthy user_query then
    if language = "ja" then
      weather_context ++ "\n\nユーザーの質問: " ++ optStr user_query ++
        "\n\n上記の天気を考慮して、詳細な提案を提供してください。質問に場所が含まれている場合は、その場所の天気を取得してください。"
    else
      weather_context ++ "\n\nUser query: " ++ optStr user_query ++
        "\n\nProvide detailed suggestions considering the weather above. If the query mentions a location, fetch weather for that location."
  else
    if language = "ja" then
      weather_context ++ "\n\nこの天気に基づいて、今日のアクティビティ、服装、外出のアイデアを提案してください。"
    else
      weather_context ++ "\n\nBased on this weather, suggest activities, outfit ideas, and outing recommendations for today."

/-- The rebuilt user prompt of the extractor fallback (source lines 409-412). -/
def updatedPrompt (weather_info : String) (user_query : String) (language : String) : String :=
  if language = "ja" then
    weather_info ++ "\n\nユーザーの質問: " ++ user_query ++
      "\n\n上記の天気を考慮して、詳細な提案を提供してください。"
  else
    weather_info ++ "\n\nUser query: " ++ user_query ++
      "\n\nProvide detailed suggestions considering the weather above."

/-- The initial message list (source lines 289-292). -/
def initMessages (weather_context : String) (user_query : Option String)
    (language : String) : List Msg :=
  [.system (system_prompt language), .user (buildPrompt weather_context user_query language)]

/-- The fixed content returned when the loop exhausts its iterations
(source line 449). -/
def maxIterationsMsg : String :=
  "Error: Maximum iterations reached while processing your request."

/-- One provider call with the capability-downgrade retry (source lines
301-330): offer tools when `auto_fetch_weather` is set; if the call raises
and the error text mentions tools/functions, retry once without tools and
disable tool calling for the rest of the request; otherwise re-raise.
Returns the response message and the updated `auto_fetch_weather`. -/
def modelStep (env : Env) (messages : List Msg) (autoFetch : Bool) :
    Except String (AssistantMsg × Bool) :=
  match (if autoFetch then env.model true messages else env.model false messages) with
  | .success m => .ok (m, autoFetch)
  | .failure e =>
    if containsToolWord e then
      match env.model false messages with
      | .success m => .ok (m, false)
      | .failure e2 => .error e2
    else .error e

/-- The error-text tool message content of source lines 374-379 (also the
shape of line 378 via `str()` of the caught exception). -/
def toolErrStr (loc : Option String) (e : String) : String :=
  "Error fetching weather for " ++ optStr loc ++ ": " ++ e

/-- Output of the tool-dispatch `for` loop. -/
structure ExecOut where
  msgs : List Msg
  fw : Option RawWeather
  g : Ghost
deriving Repr

/-- The tool-dispatch `for` loop (source lines 340-379).  Only calls named
`get_weather` are executed (others are skipped without appending anything).
The `try` body assigns `final_weather_data` before formatting the block, so
a formatting `KeyError` still keeps the new snapshot; any exception in the
body is converted into an error-text tool message tagged with the
originating `tool_call.id`. -/
def execToolCalls (env : Env) : List ToolCall → List Msg → Option RawWeather → Ghost → ExecOut
  | [], messages, fw, g => ⟨messages, fw, g⟩
  | tc :: rest, messages, fw, g =>
    if tc.name = "get_weather" then
      match fetch_weather env tc.args_location with
      | .ok fetched =>
        let g1 : Ghost := {g with resolved := g.resolved ++ [fetched]}
        match weatherDetails fetched "Weather in" with
        | .ok weather_info =>
          execToolCalls env rest
            (messages ++ [.tool tc.id tc.name weather_info]) (some fetched) g1
        | .error e =>
          execToolCalls env rest
            (messages ++ [.tool tc.id tc.name (toolErrStr tc.args_location e)])
            (some fetched) g1
      | .error he =>
        execToolCalls env rest
          (messages ++ [.tool tc.id tc.name (toolErrStr tc.args_location (pyStrHTTP he))])
          fw g
    else execToolCalls env rest messages fw g

/-- The return path of source lines 424-445: rebuild the context block when a
new snapshot was resolved (a raise there escapes the loop) and return the
response content with the authoritative snapshot. -/
def finalizeStep (wd : Option RawWeather) (m : AssistantMsg)
    (fw : Option RawWeather) : Except String (String × Option RawWeather) :=
  match fw with
  | none => .ok (m.content, none)
  | some w =>
    if some w ≠ wd then
      match weatherDetails w "Current weather in" with
      | .ok _ => .ok (m.content, some w)
      | .error e => .error e
    else .ok (m.content, some w)

/-- Result dictionary of `get_ai_suggestions`. -/
structure SuggestResult where
  content : String
  weather_data : Option RawWeather
deriving DecidableEq, Repr

/-- The `while iteration < max_iterations` loop of source lines 300-451,
with the remaining iteration budget (`max_iterations - iteration`) as
structural fuel.  Parameters fixed for the whole request: the original
`weather_data` argument `wd` (never reassigned in the source; the running
snapshot lives in `fw` = `final_weather_data`), the user query and language.
A `.error` escaping here is an exception escaping the `try` of line 294. -/
def orchLoop (env : Env) (wd : Option RawWeather) (user_query : Option String)
    (language : String) :
    Nat → Nat → List Msg → Bool → Option RawWeather → Ghost →
    Except String (String × Option RawWeather) × Ghost
  | 0, _, _, _, fw, g => (.ok (maxIterationsMsg, fw), g)
  | fuel + 1, iteration, messages, autoFetch, fw, g =>
    let g1 : Ghost := {g with rounds := g.rounds + 1}
    match modelStep env messages autoFetch with
    | .error e => (.error e, g1)
    | .ok (m, autoFetch1) =>
      if m.tool_calls ≠ [] ∧ autoFetch1 = true then
        -- source lines 335-382: append the assistant message, dispatch, next round
        let r := execToolCalls env m.tool_calls (messages ++ [.assistant m]) fw g1
        orchLoop env wd user_query language fuel (iteration + 1) r.msgs autoFetch1 r.fw r.g
      else if m.tool_calls = [] ∧ strTruthy user_query = true ∧ (wd = none ∨ iteration = 0) then
        -- source lines 385-421: extractor fallback gate
        let g2 : Ghost := {g1 with extractorCalls := g1.extractorCalls ++ [iteration]}
        match extract_location_from_query (optStr user_query) language with
        | none => (finalizeStep wd m fw, g2)
        | some extracted =>
          match fetch_weather env (some extracted) with
          | .error _ => (finalizeStep wd m fw, g2)
          | .ok fetched =>
            let g3 : Ghost := {g2 with resolved := g2.resolved ++ [fetched]}
            match weatherDetails fetched "Weather in" with
            | .error _ => (finalizeStep wd m (some fetched), g3)
            | .ok weather_info =>
              orchLoop env wd user_query language fuel (iteration + 1)
                [.system (system_prompt language),
                 .user (updatedPrompt weather_info (optStr user_query) language)]
                autoFetch1 (some fetched) g3
      else (finalizeStep wd m fw, g1)

/-- `get_ai_suggestions(weather_data, user_query, language,
auto_fetch_weather)` (source lines 219-457).  The context built before the
`try` can raise and then escapes the function (first component `.error`);
anything raised inside the loop is caught by the handler of lines 453-457,
which pairs the error text with the `weather_data` argument. -/
def get_ai_suggestions (env : Env) (weather_data : Option RawWeather)
    (user_query : Option String) (language : String) (auto_fetch_weather : Bool) :
    Except String SuggestResult × Ghost :=
  match mkWeatherContext weather_data with
  | .error e => (.error e, ⟨0, [], []⟩)
  | .ok weather_context =>
    match orchLoop env weather_data user_query language 3 0
        (initMessages weather_context user_query language)
        auto_fetch_weather weather_data ⟨0, [], []⟩ with
    | (.ok (content, fw), g) => (.ok ⟨content, fw⟩, g)
    | (.error e, g) =>
      (.ok ⟨"Error getting AI suggestions: " ++ e, weather_data⟩, g)

/-!
The session store and the API endpoints (source lines 33, 460-617).
Endpoints are modelled as state-passing functions over the global `sessions`
dictionary; a raised `HTTPException` (or an exception FastAPI would convert
to a 500 response) is the `.error` component, returned together with
whatever mutations had already been applied to the store at the point of the
raise.
-/

/-- One chat turn of a session transcript. -/
structure ChatTurn where
  role : String
  content : String
deriving DecidableEq, Repr

/-- A session dictionary, as created at source lines 545-549.  The
`formatted_weather` key is absent (`none`) until `get_suggestions` first
stores one.  The `chat_history` key is always present on created sessions,
making the defensive check of source line 508 vacuous. -/
structure Session where
  weather_data : Option RawWeather
  chat_history : List ChatTurn
  language : String
  formatted_weather : Option (Option FormattedWeather)
deriving DecidableEq, Repr

/-- The module-level `sessions` dictionary (source line 33). -/
abbrev Store := String → Option Session

/-- Assignment `sessions[id] = s`. -/
def storeSet (store : Store) (id : String) (s : Session) : Store :=
  fun i => if i = id then some s else store i

/-- Request body of `/api/suggestions` (source lines 41-44). -/
structure ChatRequest where
  session_id : String
  query : String
  language : String
deriving DecidableEq, Repr

/-- Response of `/api/suggestions` (source lines 520-528): the `weather` and
`weather_updated` keys are present only when the orchestrator resolved a
changed snapshot. -/
structure SuggResponse where
  suggestion : String
  chat_history : List ChatTurn
  weather : Option (Option FormattedWeather)
  weather_updated : Option Bool
deriving DecidableEq, Repr

/-- `get_suggestions` — POST `/api/suggestions` (source lines 483-530).
Missing session is a 404; the orchestrator is then run with the session
snapshot.  When it reports a truthy snapshot different from the session one,
the session snapshot is replaced and re-formatted (a formatting raise
becomes a 500 after the snapshot assignment already happened); when the
request query is truthy the user/assistant pair is appended to the
transcript in one step; the response re-formats the changed snapshot (the
second, identical formatting call of line 527 is reused from the first). -/
def get_suggestions (env : Env) (store : Store) (req : ChatRequest) :
    Store × Except HTTPError SuggResponse :=
  match store req.session_id with
  | none => (store, .error ⟨404, "Session not found. Please fetch weather first."⟩)
  | some session =>
    let weather_data := session.weather_data
    match get_ai_suggestions env weather_data (some req.query) req.language true with
    | (.error e, _) => (store, .error ⟨500, e⟩)
    | (.ok result, _) =>
      let appendChat : Session → Session := fun s =>
        if req.query ≠ "" then
          {s with chat_history := s.chat_history ++
            [⟨"user", req.query⟩, ⟨"assistant", result.content⟩]}
        else s
      if result.weather_data.isSome = true ∧ result.weather_data ≠ weather_data then
        let session1 : Session := {session with weather_data := result.weather_data}
        match format_weather_data result.weather_data with
        | .error e =>
          (storeSet store req.session_id session1, .error ⟨500, e⟩)
        | .ok fmt =>
          let session2 : Session := appendChat {session1 with formatted_weather := some fmt}
          (storeSet store req.session_id session2,
           .ok ⟨result.content, session2.chat_history, some fmt, some true⟩)
      else
        let session2 := appendChat session
        (storeSet store req.session_id session2,
         .ok ⟨result.content, session2.chat_history, none, none⟩)

/-- Response of `/api/weather-with-suggestions` (source lines 555-559). -/
structure WeatherSuggResponse where
  session_id : String
  weather : Option FormattedWeather
  suggestion : String
deriving DecidableEq, Repr

/-- `get_weather_with_suggestions` — POST `/api/weather-with-suggestions`
(source lines 533-559).  Fetches and formats the weather (failures escape
before any session mutation), then assigns a brand-new session dictionary to
the given id (a fresh UUID `freshId` when the id is falsy) — wholesale, so
an existing session under that id is replaced — and finally asks the
orchestrator for an initial suggestion without tool calling. -/
def get_weather_with_suggestions (env : Env) (store : Store) (location : String)
    (language : String) (session_id : Option String) (freshId : String) :
    Store × Except HTTPError WeatherSuggResponse :=
  match fetch_weather env (some location) with
  | .error he => (store, .error he)
  | .ok weather_data =>
    match format_weather_data (some weather_data) with
    | .error e => (store, .error ⟨500, e⟩)
    | .ok formatted =>
      let sid := if strTruthy session_id then optStr session_id else freshId
      let store1 := storeSet store sid ⟨some weather_data, [], language, none⟩
      match get_ai_suggestions env (some weather_data) none language false with
      | (.error e, _) => (store1, .error ⟨500, e⟩)
      | (.ok result, _) =>
        (store1, .ok ⟨sid, formatted, result.content⟩)

/-- `clear_chat` — DELETE `/api/session/{session_id}/chat` (source lines
588-594): 404 on a missing session, otherwise resets only `chat_history`. -/
def clear_chat (store : Store) (session_id : String) :
    Store × Except HTTPError String :=
  match store session_id with
  | none => (store, .error ⟨404, "Session not found"⟩)
  | some s =>
    (storeSet store session_id {s with chat_history := []}, .ok "Chat history cleared")

/-- The `translations` string tables (source lines 57-92). -/
def translations : List (String × List (String × String)) :=
  [("en",
    [("title", "🌤️ Weather Activity Advisor"),
     ("subtitle", "Get personalized activity suggestions based on real-time weather"),
     ("location_input", "Enter your location (city name)"),
     ("location_placeholder", "e.g., Tokyo, New York, London"),
     ("get_weather", "Get Weather & Suggestions"),
     ("voice_input", "🎤 Voice Input"),
     ("chat_input", "Ask me anything about activities, fashion, or plans..."),
     ("example_prompts", "Example Prompts:"),
     ("weather_info", "Current Weather Information"),
     ("suggestions", "AI Suggestions"),
     ("chat_history", "Chat History"),
     ("clear_chat", "Clear Chat"),
     ("error", "Error"),
     ("weather_fetch_error", "Could not fetch weather data. Please check the location."),
     ("language", "Language")]),
   ("ja",
    [("title", "🌤️ 天気アクティビティアドバイザー"),
     ("subtitle", "リアルタイムの天気に基づいてパーソナライズされたアクティビティ提案を取得"),
     ("location_input", "場所を入力してください（都市名）"),
     ("location_placeholder", "例：東京、大阪、札幌"),
     ("get_weather", "天気と提案を取得"),
     ("voice_input", "🎤 音声入力"),
     ("chat_input", "アクティビティ、ファッション、プランについて何でも聞いてください..."),
     ("example_prompts", "例のプロンプト："),
     ("weather_info", "現在の気象情報"),
     ("suggestions", "AI提案"),
     ("chat_history", "チャット履歴"),
     ("clear_chat", "チャットをクリア"),
     ("error", "エラー"),
     ("weather_fetch_error", "天気データを取得できませんでした。場所を確認してください。"),
     ("language", "言語")])]

/-- The language codes present in the `translations` dictionary. -/
def supported_languages : List String := translations.map Prod.fst

/-- `get_translations` — GET `/api/translations/{language}` (source lines
467-472): 400 for a language not in the dictionary.  The endpoint never
touches the session store; the store is threaded to state that. -/
def get_translations (store : Store) (language : String) :
    Store × Except HTTPError (List (String × String)) :=
  match translations.lookup language with
  | none => (store, .error ⟨400, "Language not supported"⟩)
  | some table => (store, .ok table)

/-- The Japanese example prompts (source lines 600-608). -/
def ja_examples : List String :=
  ["今日は何を着ればいいですか？", "外出するのに良い時間は？",
   "雨が降るので、室内でできることは？", "この天気でおすすめのスポーツは？"]

/-- The English example prompts (source lines 609-617). -/
def en_examples : List String :=
  ["What should I wear today?", "Best time to go outside?",
   "Indoor activities for this weather?", "Recommended sports for this weather?"]

/-- `get_examples` — GET `/api/examples/{language}` (source lines 597-617):
returns the Japanese list for `ja` and the English list for every other
language code, with no validation and no error path.  The endpoint never
touches the session store; the store is threaded to state that. -/
def get_examples (store : Store) (language : String) :
    Store × Except HTTPError (List String) :=
  (store, .ok (if language = "ja" then ja_examples else en_examples))

/-- A sequence of `/api/suggestions` calls against the store (responses
discarded, mutations kept). -/
def runSuggestions (env : Env) (store : Store) : List ChatRequest → Store
  | [] => store
  | req :: rest => runSuggestions env (get_suggestions env store req).1 rest

/-!  Concrete fixtures used by witnesses and counterexamples. -/

/-- A fully populated provider `location` dictionary. -/
def fullLocation : RawLocation := ⟨some "Tokyo", some "Japan", some "2025-01-01 12:00"⟩

/-- A fully populated provider `condition` dictionary. -/
def fullCondition : RawCondition := ⟨some "Sunny", some "icon.png"⟩

/-- A fully populated provider `current` dictionary. -/
def fullCurrent : RawCurrent :=
  ⟨some "20", some "68", some fullCondition, some "19", some "50",
   some "10", some "N", some "0", some "5", some "10"⟩

/-- A fully populated provider payload for Tokyo. -/
def fullWeather : RawWeather := ⟨some fullLocation, some fullCurrent⟩

/-- A second fully populated provider payload (Osaka), unequal to
`fullWeather`. -/
def osakaWeather : RawWeather :=
  ⟨some ⟨some "Osaka", some "Japan", some "2025-01-01 12:05"⟩, some fullCurrent⟩

/-- `format_weather_data` output for `fullWeather`. -/
def fullFormatted : FormattedWeather :=
  ⟨"Tokyo, Japan", "20°C / 68°F", "Sunny", "icon.png", "19°C", "50%",
   "10 km/h N", "0 mm", "5", "10 km", "2025-01-01 12:00", fullWeather⟩

/-- The empty session store. -/
def emptyStore : Store := fun _ => none

/-- A session holding one recorded exchange. -/
def sampleSession : Session :=
  ⟨some fullWeather, [⟨"user", "hi"⟩, ⟨"assistant", "ok"⟩], "en", none⟩

/-- A store holding `sampleSession` under the id `s1`. -/
def sampleStore : Store := fun i => if i = "s1" then some sampleSession else none

/-- A store holding a freshly created session (empty transcript) under `s1`. -/
def freshStore : Store :=
  fun i => if i = "s1" then some ⟨some fullWeather, [], "en", none⟩ else none

/-- A model oracle that always answers with plain content, paired with a
weather oracle that always succeeds. -/
def plainEnv : Env :=
  ⟨fun _ _ => .success ⟨"hello", []⟩, fun _ => .ok fullWeather⟩

/-!  Claim C5 — `transcribe_audio_deepgram` error/empty-transcript behavior. -/

/-- C5, counterexample.  The claim says a non-success provider status fails
with an error carrying that provider status code.  At provider status 404
the raised `HTTPException(404, ...)` is caught by the surrounding
`except Exception` (source line 178) and re-raised as status 500 with the
provider status demoted into the detail text, so the error carries 500, not
404. -/
theorem C5_counterexample :
    transcribe_audio_deepgram ⟨404, some "", "Not Found"⟩
      = .error ⟨500, "Transcription error: 404: Deepgram API Error: Not Found"⟩ ∧
    (500 : Nat) ≠ 404 :=
  ⟨rfl, by decide⟩

/-- C5, amended: `transcribe_audio_deepgram` returns `null` (not an error)
for a 200 response with an empty transcript and the transcript itself for a
200 response with a non-empty one; for every non-success HTTP status it
fails with an error whose status code is 500 and whose detail embeds the
provider status code and message as
`Transcription error: {status}: Deepgram API Error: {body}` — the provider
status is not preserved as the error status code. -/
theorem C5_transcription (resp : DGResponse) :
    (resp.status_code = 200 → resp.transcript = some "" →
      transcribe_audio_deepgram resp = .ok none) ∧
    (∀ t, resp.status_code = 200 → resp.transcript = some t → t ≠ "" →
      transcribe_audio_deepgram resp = .ok (some t)) ∧
    (resp.status_code ≠ 200 →
      transcribe_audio_deepgram resp = .error ⟨500,
        "Transcription error: " ++
          (toString resp.status_code ++ ": " ++ ("Deepgram API Error: " ++ resp.text))⟩) := by
  refine ⟨?_, ?_, ?_⟩
  · intro h200 hemp
    simp [transcribe_audio_deepgram, h200, hemp, dget]
  · intro t h200 ht hne
    simp [transcribe_audio_deepgram, h200, ht, hne, dget]
  · intro hne
    simp [transcribe_audio_deepgram, hne, dget, pyStrHTTP]

/-- C5, witness for `C5_transcription` at concrete responses. -/
theorem C5_witness :
    transcribe_audio_deepgram ⟨200, some "", "body"⟩ = .ok none ∧
    transcribe_audio_deepgram ⟨200, some "hello there", "body"⟩ = .ok (some "hello there") ∧
    transcribe_audio_deepgram ⟨503, some "", "overloaded"⟩
      = .error ⟨500, "Transcription error: 503: Deepgram API Error: overloaded"⟩ :=
  ⟨(C5_transcription ⟨200, some "", "body"⟩).1 rfl rfl,
   (C5_transcription ⟨200, some "hello there", "body"⟩).2.1 "hello there" rfl rfl (by decide),
   (C5_transcription ⟨503, some "", "overloaded"⟩).2.2 (by decide)⟩

/-!  Claim C6 — unsupported language on the translations/examples endpoints. -/

/-- C6, counterexample.  The claim says both endpoints fail with a
400-equivalent for every unsupported language code.  `fr` is not a supported
locale, yet the examples endpoint succeeds, returning the English example
list (the source has no validation there, lines 597-617). -/
theorem C6_counterexample :
    (get_examples emptyStore "fr").2 = .ok en_examples ∧
    supported_languages.contains "fr" = false :=
  ⟨rfl, by decide⟩

/-- C6, amended: for every unsupported language code the translations
endpoint fails with a 400 error and leaves the store untouched, while the
examples endpoint does not fail at all: it leaves the store untouched and
returns the English example list (there is no validation on that
endpoint). -/
theorem C6_unsupported_language (store : Store) (language : String)
    (h : supported_languages.contains language = false) :
    get_translations store language = (store, .error ⟨400, "Language not supported"⟩) ∧
    (get_examples store language).1 = store ∧
    (get_examples store language).2 = .ok en_examples := by
  have hlangs : language ≠ "en" ∧ language ≠ "ja" := by
    constructor <;> (intro he; subst he; simp [supported_languages, translations] at h)
  have h1 : (language == "en") = false := by simp [hlangs.1]
  have h2 : (language == "ja") = false := by simp [hlangs.2]
  refine ⟨?_, rfl, ?_⟩
  · simp [get_translations, translations, List.lookup, h1, h2]
  · simp [get_examples, hlangs.2]

/-- C6, witness for `C6_unsupported_language` at the unsupported code `fr`. -/
theorem C6_witness :
    get_translations emptyStore "fr" = (emptyStore, .error ⟨400, "Language not supported"⟩) ∧
    (get_examples emptyStore "fr").1 = emptyStore ∧
    (get_examples emptyStore "fr").2 = .ok en_examples :=
  C6_unsupported_language emptyStore "fr" (by decide)

/-!  Claim C7 — `format_weather_data` purity and missing-field tolerance. -/

/-- A payload with every field present except `current.uv`. -/
def uvMissingWeather : RawWeather :=
  ⟨some fullLocation, some {fullCurrent with uv := none}⟩

/-- C7, counterexample.  The claim says `format_weather_data` never raises
when an optional field of the payload is missing.  On a payload missing only
`current.uv` it raises `KeyError` (direct subscript at source line 123)
instead of surfacing the field as absent. -/
theorem C7_counterexample :
    format_weather_data (some uvMissingWeather) = .error (keyErrStr "uv") := rfl

/-- C7, amended: `format_weather_data` is a pure transformation (a Lean
function); it returns `None` for an absent payload, and it succeeds exactly
when every field it subscripts is present — with `raw_data` preserving the
payload verbatim — but a payload with any missing field makes it raise
`KeyError` rather than surface the field as absent. -/
theorem C7_format_weather (w : RawWeather) :
    format_weather_data none = .ok none ∧
    isOkE (format_weather_data (some w)) = hasAllFields w ∧
    (hasAllFields w = true →
      ∃ f, format_weather_data (some w) = .ok (some f) ∧ f.raw_data = w) := by
  refine ⟨rfl, ?_⟩
  obtain ⟨l, c⟩ := w
  rcases l with - | ⟨name, country, localtime⟩
  · simp [format_weather_data, hasAllFields, dget, isOkE, Bind.bind, Except.bind]
  rcases c with - | ⟨tc, tf, cond, fl, hum, wk, wdr, pm, uv, vk⟩
  · simp [format_weather_data, hasAllFields, dget, isOkE, Bind.bind, Except.bind]
  rcases name with - | name
  · simp [format_weather_data, hasAllFields, dget, isOkE, Bind.bind, Except.bind]
  rcases country with - | country
  · simp [format_weather_data, hasAllFields, dget, isOkE, Bind.bind, Except.bind]
  rcases tc with - | tc
  · simp [format_weather_data, hasAllFields, dget, isOkE, Bind.bind, Except.bind]
  rcases tf with - | tf
  · simp [format_weather_data, hasAllFields, dget, isOkE, Bind.bind, Except.bind]
  rcases cond with - | ⟨ct, ci⟩
  · simp [format_weather_data, hasAllFields, dget, isOkE, Bind.bind, Except.bind]
  rcases ct with - | ct
  · simp [format_weather_data, hasAllFields, dget, isOkE, Bind.bind, Except.bind]
  rcases ci with - | ci
  · simp [format_weather_data, hasAllFields, dget, isOkE, Bind.bind, Except.bind]
  rcases fl with - | fl
  · simp [format_weather_data, hasAllFields, dget, isOkE, Bind.bind, Except.bind]
  rcases hum with - | hum
  · simp [format_weather_data, hasAllFields, dget, isOkE, Bind.bind, Except.bind]
  rcases wk with - | wk
  · simp [format_weather_data, hasAllFields, dget, isOkE, Bind.bind, Except.bind]
  rcases wdr with - | wdr
  · simp [format_weather_data, hasAllFields, dget, isOkE, Bind.bind, Except.bind]
  rcases pm with - | pm
  · simp [format_weather_data, hasAllFields, dget, isOkE, Bind.bind, Except.bind]
  rcases uv with - | uv
  · simp [format_weather_data, hasAllFields, dget, isOkE, Bind.bind, Except.bind]
  rcases vk with - | vk
  · simp [format_weather_data, hasAllFields, dget, isOkE, Bind.bind, Except.bind]
  rcases localtime with - | localtime
  · simp [format_weather_data, hasAllFields, dget, isOkE, Bind.bind, Except.bind]
  exact ⟨rfl, fun _ => ⟨_, rfl, rfl⟩⟩

/-- C7, witness for `C7_format_weather` at the fully populated payload. -/
theorem C7_witness :
    ∃ f, format_weather_data (some fullWeather) = .ok (some f) ∧
      f.raw_data = fullWeather :=
  (C7_format_weather fullWeather).2.2 rfl

/-!  Claim C9 — `clear_chat` empties the transcript and nothing else. -/

/-- C9: on an existing session, `clear_chat` succeeds, leaves exactly that
session with an empty transcript and its snapshot (and language and
formatted snapshot) identity-preserved, and leaves every other session
unchanged. -/
theorem C9_clear_chat (store : Store) (session_id : String) (s : Session)
    (h : store session_id = some s) :
    (clear_chat store session_id).2 = .ok "Chat history cleared" ∧
    (clear_chat store session_id).1 session_id
      = some ⟨s.weather_data, [], s.language, s.formatted_weather⟩ ∧
    ∀ id, id ≠ session_id → (clear_chat store session_id).1 id = store id := by
  refine ⟨?_, ?_, ?_⟩
  · simp [clear_chat, h]
  · simp [clear_chat, h, storeSet]
  · intro id hid
    simp [clear_chat, h, storeSet, hid]

/-- C9, witness for `C9_clear_chat` at a concrete store. -/
theorem C9_witness :
    (clear_chat sampleStore "s1").2 = .ok "Chat history cleared" ∧
    (clear_chat sampleStore "s1").1 "s1"
      = some ⟨some fullWeather, [], "en", none⟩ ∧
    ∀ id, id ≠ "s1" → (clear_chat sampleStore "s1").1 id = sampleStore id :=
  C9_clear_chat sampleStore "s1" sampleSession rfl

/-!  Claim C10 — `get_weather_with_suggestions` replaces an existing session
wholesale. -/

/-- C10: when the weather-with-suggestions endpoint is called with a session
id already present in the store (here holding `sOld`), a successful fetch
and format replace that session with a brand-new dictionary: empty
transcript, the newly fetched snapshot, the request language, and no
formatted snapshot — the previously recorded exchanges are gone. -/
theorem C10_replaces_session (env : Env) (store : Store)
    (location language sid freshId : String) (sOld : Session) (w : RawWeather)
    (fmt : Option FormattedWeather)
    (hsid : sid ≠ "")
    (hold : store sid = some sOld)
    (hfetch : env.fetchW (some location) = .ok w)
    (hfmt : format_weather_data (some w) = .ok fmt) :
    (get_weather_with_suggestions env store location language (some sid) freshId).1 sid
      = some ⟨some w, [], language, none⟩ := by
  unfold get_weather_with_suggestions fetch_weather
  rw [hfetch]
  simp only [hfmt]
  have hsidT : strTruthy (some sid) = true := by simp [strTruthy, hsid]
  rw [if_pos hsidT]
  rcases hga : get_ai_suggestions env (some w) none language false with ⟨res, g⟩
  cases res <;> simp [storeSet, optStr]

/-- C10, witness for `C10_replaces_session`: the pre-existing session `s1`
held a two-turn transcript; after the call it is the fresh session. -/
theorem C10_witness :
    (get_weather_with_suggestions plainEnv sampleStore "Tokyo" "en" (some "s1") "fresh").1 "s1"
      = some ⟨some fullWeather, [], "en", none⟩ :=
  C10_replaces_session plainEnv sampleStore "Tokyo" "en" "s1" "fresh" sampleSession
    fullWeather (some fullFormatted) (by decide) rfl rfl rfl

/-!  Claim C8 — transcripts stay even-length and user/assistant-alternating. -/

/-- The transcript is a sequence of user/assistant pairs: even length,
alternating roles starting with `user`. -/
def alternatesUA : List ChatTurn → Bool
  | [] => true
  | [_] => false
  | u :: a :: rest => ((u.role == "user") && (a.role == "assistant")) && alternatesUA rest

/-- Appending one user/assistant pair preserves the alternation invariant. -/
theorem alternatesUA_append_pair (x y : String) :
    ∀ h : List ChatTurn, alternatesUA h = true →
      alternatesUA (h ++ [⟨"user", x⟩, ⟨"assistant", y⟩]) = true
  | [], _ => by simp [alternatesUA]
  | [_], hh => by simp [alternatesUA] at hh
  | u :: a :: rest, hh => by
    simp only [alternatesUA, Bool.and_eq_true] at hh
    simp only [List.cons_append, alternatesUA, Bool.and_eq_true]
    exact ⟨hh.1, alternatesUA_append_pair x y rest hh.2⟩

/-- An alternating transcript has even length. -/
theorem alternatesUA_even : ∀ h : List ChatTurn, alternatesUA h = true → h.length % 2 = 0
  | [], _ => rfl
  | [_], hh => by simp [alternatesUA] at hh
  | _ :: _ :: rest, hh => by
    simp only [alternatesUA, Bool.and_eq_true] at hh
    have := alternatesUA_even rest hh.2
    simp only [List.length_cons]
    omega

/-- Every session in the store has an alternating transcript. -/
def storeWF (store : Store) : Prop :=
  ∀ id s, store id = some s → alternatesUA s.chat_history = true

/-- Reading back the assigned key. -/
theorem storeSet_same (store : Store) (id : String) (s : Session) :
    storeSet store id s id = some s := by
  simp [storeSet]

/-- Reading any other key. -/
theorem storeSet_other (store : Store) (id : String) (s : Session) (id' : String)
    (h : id' ≠ id) : storeSet store id s id' = store id' := by
  simp [storeSet, h]

/-- `get_suggestions` either leaves the store unchanged or overwrites the
addressed session with one whose transcript is the old transcript, possibly
extended by exactly one user/assistant pair (the source appends the two
turns back to back at lines 510-517). -/
theorem get_suggestions_store_cases (env : Env) (store : Store) (req : ChatRequest) :
    (get_suggestions env store req).1 = store ∨
    ∃ s s1, store req.session_id = some s ∧
      (get_suggestions env store req).1 = storeSet store req.session_id s1 ∧
      (s1.chat_history = s.chat_history ∨
       ∃ x y, s1.chat_history = s.chat_history ++ [⟨"user", x⟩, ⟨"assistant", y⟩]) := by
  cases hsess : store req.session_id with
  | none =>
    refine .inl ?_
    simp [get_suggestions, hsess]
  | some session =>
    rcases hga : get_ai_suggestions env session.weather_data (some req.query) req.language true
      with ⟨res, g⟩
    cases res with
    | error e =>
      refine .inl ?_
      simp [get_suggestions, hsess, hga]
    | ok result =>
      by_cases hch : result.weather_data.isSome = true ∧ result.weather_data ≠ session.weather_data
      · cases hfmt : format_weather_data result.weather_data with
        | error e =>
          exact .inr ⟨session, ({session with weather_data := result.weather_data} : Session),
            rfl, by simp [get_suggestions, hsess, hga, hch, hfmt], .inl rfl⟩
        | ok fmt =>
          by_cases hq : req.query = ""
          · refine .inr ⟨session,
              ({session with
                weather_data := result.weather_data,
                formatted_weather := some fmt} : Session),
              rfl, ?_, .inl rfl⟩
            simp only [hq] at hga
            simp [get_suggestions, hsess, hga, hch, hfmt, hq]
          · exact .inr ⟨session,
              ({session with
                weather_data := result.weather_data,
                formatted_weather := some fmt,
                chat_history := session.chat_history ++
                  [⟨"user", req.query⟩, ⟨"assistant", result.content⟩]} : Session),
              rfl,
              by simp [get_suggestions, hsess, hga, hch, hfmt, hq],
              .inr ⟨req.query, result.content, rfl⟩⟩
      · by_cases hq : req.query = ""
        · refine .inr ⟨session, session, rfl, ?_, .inl rfl⟩
          simp only [hq] at hga
          simp [get_suggestions, hsess, hga, hch, hq]
        · exact .inr ⟨session,
            ({session with chat_history := session.chat_history ++
              [⟨"user", req.query⟩, ⟨"assistant", result.content⟩]} : Session),
            rfl,
            by simp [get_suggestions, hsess, hga, hch, hq],
            .inr ⟨req.query, result.content, rfl⟩⟩

/-- One `get_suggestions` call preserves the store invariant. -/
theorem get_suggestions_preserves_wf (env : Env) (store : Store) (req : ChatRequest)
    (h : storeWF store) : storeWF (get_suggestions env store req).1 := by
  rcases get_suggestions_store_cases env store req with heq | ⟨s, s1, hs, heq, hch⟩
  · rw [heq]; exact h
  · rw [heq]
    intro id t hid
    by_cases hidq : id = req.session_id
    · subst hidq
      rw [storeSet_same] at hid
      injection hid with hid
      subst hid
      rcases hch with hsame | ⟨x, y, hpair⟩
      · rw [hsame]; exact h _ _ hs
      · rw [hpair]; exact alternatesUA_append_pair x y _ (h _ _ hs)
    · rw [storeSet_other _ _ _ _ hidq] at hid
      exact h _ _ hid

/-- Any sequence of `get_suggestions` calls preserves the store invariant. -/
theorem runSuggestions_wf (env : Env) : ∀ (reqs : List ChatRequest) (store : Store),
    storeWF store → storeWF (runSuggestions env store reqs)
  | [], _, h => h
  | req :: rest, store, h =>
    runSuggestions_wf env rest _ (get_suggestions_preserves_wf env store req h)

/-- C8: exchanges are recorded as atomic user/assistant pairs, so starting
from any store whose transcripts alternate (in particular one of freshly
created sessions, whose transcripts are empty), after any sequence of
suggestion calls every session transcript still alternates
user/assistant starting with user, and its length is even. -/
theorem C8_transcript_even_alternating (env : Env) (store : Store)
    (reqs : List ChatRequest) (id : String) (s : Session)
    (hwf : storeWF store) (hid : runSuggestions env store reqs id = some s) :
    alternatesUA s.chat_history = true ∧ s.chat_history.length % 2 = 0 := by
  have hs := runSuggestions_wf env reqs store hwf _ _ hid
  exact ⟨hs, alternatesUA_even _ hs⟩

/-- The session produced by the C8 witness run: one recorded exchange. -/
def sessAfter : Session :=
  ⟨some fullWeather, [⟨"user", "hi"⟩, ⟨"assistant", "hello"⟩], "en", none⟩

/-- C8, witness for `C8_transcript_even_alternating`: one suggestion call
against a fresh session records exactly one user/assistant pair. -/
theorem C8_witness :
    alternatesUA sessAfter.chat_history = true ∧
    sessAfter.chat_history.length % 2 = 0 :=
  C8_transcript_even_alternating plainEnv freshStore [⟨"s1", "hi", "en"⟩] "s1" sessAfter
    (by
      intro id s h
      by_cases hid : id = "s1"
      · subst hid
        have hfs : freshStore "s1" = some ⟨some fullWeather, [], "en", none⟩ := rfl
        rw [hfs] at h
        injection h with h
        subst h
        rfl
      · have hfs : freshStore id = none := by simp [freshStore, hid]
        rw [hfs] at h
        exact Option.noConfusion h)
    (by rfl)

/-!  Loop lemmas for the Orchestrator claims. -/

/-- Tool dispatch touches the `resolved` trace only: it never changes the
round counter or the extractor trace. -/
theorem execToolCalls_ghost (env : Env) : ∀ (tcs : List ToolCall) (msgs : List Msg)
    (fw : Option RawWeather) (g : Ghost),
    (execToolCalls env tcs msgs fw g).g.rounds = g.rounds ∧
    (execToolCalls env tcs msgs fw g).g.extractorCalls = g.extractorCalls
  | [], _, _, _ => ⟨rfl, rfl⟩
  | tc :: rest, msgs, fw, g => by
    unfold execToolCalls
    by_cases hname : tc.name = "get_weather"
    · rw [if_pos hname]
      cases hf : fetch_weather env tc.args_location with
      | ok fetched =>
        dsimp only
        cases hw : weatherDetails fetched "Weather in" with
        | ok wi => exact execToolCalls_ghost env rest _ _ _
        | error e => exact execToolCalls_ghost env rest _ _ _
      | error he =>
        dsimp only
        exact execToolCalls_ghost env rest _ _ _
    · rw [if_neg hname]
      exact execToolCalls_ghost env rest _ _ _

/-- The loop issues at most `fuel` further model rounds. -/
theorem orchLoop_rounds_le (env : Env) (wd : Option RawWeather) (q : Option String)
    (lang : String) : ∀ (fuel iteration : Nat) (messages : List Msg) (af : Bool)
    (fw : Option RawWeather) (g : Ghost),
    (orchLoop env wd q lang fuel iteration messages af fw g).2.rounds ≤ g.rounds + fuel := by
  intro fuel
  induction fuel with
  | zero => intro it msgs af fw g; simp [orchLoop]
  | succ fuel ih =>
    intro it msgs af fw g
    simp only [orchLoop]
    cases hms : modelStep env msgs af with
    | error e =>
      simp only []
      simp
    | ok p =>
      obtain ⟨m, af1⟩ := p
      simp only []
      by_cases h1 : m.tool_calls ≠ [] ∧ af1 = true
      · rw [if_pos h1]
        have hg := (execToolCalls_ghost env m.tool_calls (msgs ++ [.assistant m]) fw
          {g with rounds := g.rounds + 1}).1
        have hle := ih (it + 1)
          (execToolCalls env m.tool_calls (msgs ++ [.assistant m]) fw
            {g with rounds := g.rounds + 1}).msgs af1
          (execToolCalls env m.tool_calls (msgs ++ [.assistant m]) fw
            {g with rounds := g.rounds + 1}).fw
          (execToolCalls env m.tool_calls (msgs ++ [.assistant m]) fw
            {g with rounds := g.rounds + 1}).g
        rw [hg] at hle
        simp only [Ghost.mk.injEq] at hle ⊢
        omega
      · rw [if_neg h1]
        by_cases h2 : m.tool_calls = [] ∧ strTruthy q = true ∧ (wd = none ∨ it = 0)
        · rw [if_pos h2]
          cases hex : extract_location_from_query (optStr q) lang with
          | none => simp
          | some extracted =>
            dsimp only
            cases hfw : fetch_weather env (some extracted) with
            | error he => simp
            | ok fetched =>
              dsimp only
              cases hwd : weatherDetails fetched "Weather in" with
              | error e => simp
              | ok wi =>
                dsimp only
                have hle := ih (it + 1)
                  [.system (system_prompt lang),
                   .user (updatedPrompt wi (optStr q) lang)] af1 (some fetched)
                  {g with
                    rounds := g.rounds + 1,
                    extractorCalls := g.extractorCalls ++ [it],
                    resolved := g.resolved ++ [fetched]}
                dsimp only at hle
                omega
        · rw [if_neg h2]
          simp

/-- The snapshot that is authoritative after a run that resolved the
snapshots of `res` in order, starting from `wd`: each assignment
`final_weather_data = fetched` of the source overwrites the previous one, so
the result is the last element of `res`, or `wd` when nothing was
resolved. -/
def lastResolved (wd : Option RawWeather) (res : List RawWeather) : Option RawWeather :=
  res.foldl (fun _ w => some w) wd

/-- The running snapshot after tool dispatch is the last snapshot the
dispatch resolved (the dispatch appends exactly its resolutions to the
`resolved` trace), or the incoming snapshot when no fetch succeeded. -/
theorem execToolCalls_resolves (env : Env) : ∀ (tcs : List ToolCall) (msgs : List Msg)
    (fw : Option RawWeather) (g : Ghost),
    ∃ newRes, (execToolCalls env tcs msgs fw g).fw = lastResolved fw newRes ∧
      (execToolCalls env tcs msgs fw g).g.resolved = g.resolved ++ newRes
  | [], _, _, _ => ⟨[], rfl, by simp [execToolCalls]⟩
  | tc :: rest, msgs, fw, g => by
    unfold execToolCalls
    by_cases hname : tc.name = "get_weather"
    · rw [if_pos hname]
      cases hf : fetch_weather env tc.args_location with
      | ok fetched =>
        dsimp only
        cases hw : weatherDetails fetched "Weather in" with
        | ok wi =>
          obtain ⟨nr, h1, h2⟩ := execToolCalls_resolves env rest
            (msgs ++ [.tool tc.id tc.name wi]) (some fetched)
            {g with resolved := g.resolved ++ [fetched]}
          exact ⟨fetched :: nr, h1, by rw [h2]; simp⟩
        | error e =>
          obtain ⟨nr, h1, h2⟩ := execToolCalls_resolves env rest
            (msgs ++ [.tool tc.id tc.name (toolErrStr tc.args_location e)]) (some fetched)
            {g with resolved := g.resolved ++ [fetched]}
          exact ⟨fetched :: nr, h1, by rw [h2]; simp⟩
      | error he =>
        dsimp only
        exact execToolCalls_resolves env rest _ _ _
    · rw [if_neg hname]
      exact execToolCalls_resolves env rest _ _ _

/-- Against a model that carries tool calls on every response, the loop
consumes its whole budget, never invokes the extractor, never fails, and
returns the fixed maximum-iterations content paired with the snapshot last
resolved by the dispatch rounds (the incoming snapshot when no fetch
succeeded), its `resolved` trace recording exactly those resolutions. -/
theorem orchLoop_always_tools (env : Env) (wd : Option RawWeather) (q : Option String)
    (lang : String) (H : ∀ b msgs, (env.model b msgs).hasTC = true) :
    ∀ (fuel iteration : Nat) (messages : List Msg) (fw : Option RawWeather) (g : Ghost),
    ∃ newRes, orchLoop env wd q lang fuel iteration messages true fw g
      = (.ok (maxIterationsMsg, lastResolved fw newRes),
         ⟨g.rounds + fuel, g.extractorCalls, g.resolved ++ newRes⟩) := by
  intro fuel
  induction fuel with
  | zero =>
    intro it msgs fw g
    exact ⟨[], by simp [orchLoop, lastResolved]⟩
  | succ fuel ih =>
    intro it msgs fw g
    have hm := H true msgs
    cases hme : env.model true msgs with
    | failure e => rw [hme] at hm; simp [ModelResult.hasTC] at hm
    | success m =>
      rw [hme] at hm
      simp only [ModelResult.hasTC, decide_eq_true_eq] at hm
      have hms : modelStep env msgs true = .ok (m, true) := by
        unfold modelStep; simp [hme]
      simp only [orchLoop, hms]
      rw [if_pos ⟨hm, by simp⟩]
      obtain ⟨nr1, hfw1, hres1⟩ := execToolCalls_resolves env m.tool_calls
        (msgs ++ [.assistant m]) fw {g with rounds := g.rounds + 1}
      have hg := execToolCalls_ghost env m.tool_calls (msgs ++ [.assistant m]) fw
        {g with rounds := g.rounds + 1}
      obtain ⟨nr2, hrec⟩ := ih (it + 1)
        (execToolCalls env m.tool_calls (msgs ++ [.assistant m]) fw
          {g with rounds := g.rounds + 1}).msgs
        (execToolCalls env m.tool_calls (msgs ++ [.assistant m]) fw
          {g with rounds := g.rounds + 1}).fw
        (execToolCalls env m.tool_calls (msgs ++ [.assistant m]) fw
          {g with rounds := g.rounds + 1}).g
      refine ⟨nr1 ++ nr2, ?_⟩
      rw [hrec, hfw1, hres1, hg.1, hg.2]
      have harith : ({g with rounds := g.rounds + 1} : Ghost).rounds + fuel
          = g.rounds + (fuel + 1) := by dsimp only; omega
      rw [harith]
      simp [lastResolved, List.foldl_append, List.append_assoc]

/-- When the initial snapshot argument is non-null, the gate of source line
387 only opens on the first round: every recorded extractor invocation is at
round index 0. -/
theorem orchLoop_extractor_zero (env : Env) (w : RawWeather) (q : Option String)
    (lang : String) : ∀ (fuel iteration : Nat) (messages : List Msg) (af : Bool)
    (fw : Option RawWeather) (g : Ghost),
    (∀ i ∈ g.extractorCalls, i = 0) →
    ∀ i ∈ (orchLoop env (some w) q lang fuel iteration messages af fw g).2.extractorCalls,
      i = 0 := by
  intro fuel
  induction fuel with
  | zero => intro it msgs af fw g hg; simpa [orchLoop] using hg
  | succ fuel ih =>
    intro it msgs af fw g hg
    simp only [orchLoop]
    cases hms : modelStep env msgs af with
    | error e => simpa using hg
    | ok p =>
      obtain ⟨m, af1⟩ := p
      dsimp only
      by_cases h1 : m.tool_calls ≠ [] ∧ af1 = true
      · rw [if_pos h1]
        refine ih (it + 1) _ af1 _ _ ?_
        have hgx := (execToolCalls_ghost env m.tool_calls (msgs ++ [.assistant m]) fw
          {g with rounds := g.rounds + 1}).2
        rw [hgx]
        exact hg
      · rw [if_neg h1]
        by_cases h2 : m.tool_calls = [] ∧ strTruthy q = true ∧ ((some w : Option RawWeather) = none ∨ it = 0)
        · rw [if_pos h2]
          have hit : it = 0 := by
            rcases h2.2.2 with hw | h0
            · exact absurd hw (by simp)
            · exact h0
          have hg2 : ∀ i ∈ (g.extractorCalls ++ [it]), i = 0 := by
            intro i hi
            rcases List.mem_append.mp hi with hi | hi
            · exact hg i hi
            · rw [List.mem_singleton.mp hi]; exact hit
          cases hex : extract_location_from_query (optStr q) lang with
          | none => simpa using hg2
          | some extracted =>
            dsimp only
            cases hfw : fetch_weather env (some extracted) with
            | error he => simpa using hg2
            | ok fetched =>
              dsimp only
              cases hwd : weatherDetails fetched "Weather in" with
              | error e => simpa using hg2
              | ok wi =>
                dsimp only
                exact ih (it + 1) _ af1 _ _ (by simpa using hg2)
        · rw [if_neg h2]
          simpa using hg

/-- The trace of a `get_ai_suggestions` call whose initial context builds is
the trace of its loop. -/
theorem get_ai_suggestions_ghost (env : Env) (wd : Option RawWeather) (q : Option String)
    (lang : String) (af : Bool) (ctx : String) (hctx : mkWeatherContext wd = .ok ctx) :
    (get_ai_suggestions env wd q lang af).2
      = (orchLoop env wd q lang 3 0 (initMessages ctx q lang) af wd ⟨0, [], []⟩).2 := by
  unfold get_ai_suggestions
  rw [hctx]
  dsimp only
  rcases horch : orchLoop env wd q lang 3 0 (initMessages ctx q lang) af wd ⟨0, [], []⟩
    with ⟨res, g⟩
  cases res with
  | ok r => rcases r with ⟨c, fw⟩; rfl
  | error e => rfl

/-!  Claim C1 — at most 3 model rounds; graceful maximum-iterations return. -/

/-- A model oracle that requests the same weather tool call on every round,
with a weather oracle that always succeeds. -/
def alwaysToolEnv : Env :=
  ⟨fun _ _ => .success ⟨"", [⟨"call1", "get_weather", some "Tokyo"⟩]⟩,
   fun _ => .ok fullWeather⟩

/-- A snapshot argument whose payload is missing the whole `current`
dictionary. -/
def currentMissingWeather : RawWeather := ⟨some fullLocation, none⟩

/-- C1, counterexample.  The claim says that with a model that requests a
tool call on every round the call returns the fixed maximum-iterations
content and never an unhandled failure.  But the initial context block
(source lines 262-275) is built before the `try` of line 294: on a snapshot
argument missing the `current` key, `weather_data['current']` raises
`KeyError` out of `get_ai_suggestions` before any round — an unhandled
failure instead of the fixed content, even though the model (second
conjunct) carries a tool call on every response. -/
theorem C1_counterexample :
    get_ai_suggestions alwaysToolEnv (some currentMissingWeather) (some "hi") "en" true
      = (.error (keyErrStr "current"), ⟨0, [], []⟩) ∧
    (∀ b msgs, (alwaysToolEnv.model b msgs).hasTC = true) :=
  ⟨rfl, fun _ _ => rfl⟩

/-- C1, amended: every invocation of `get_ai_suggestions` issues at most 3
model rounds.  In the boundary case of a model that requests a tool call on
every round — provided the initial snapshot argument is null or carries the
fields its context block reads (that block, source lines 262-275, is built
before the `try`, so a snapshot missing one of them raises an unhandled
`KeyError` instead) — a 4th round is never issued and the call returns,
never failing, the fixed maximum-iterations content together with whatever
snapshot was last resolved: the final snapshot of the `resolved` trace
`res`, or the initial argument when no fetch succeeded, the round trace
reading exactly 3 with no extractor invocation. -/
theorem C1_round_bound (env : Env) (wd : Option RawWeather) (q : Option String)
    (lang : String) (af : Bool) :
    (get_ai_suggestions env wd q lang af).2.rounds ≤ 3 ∧
    (af = true → (∀ b msgs, (env.model b msgs).hasTC = true) →
      ∀ ctx, mkWeatherContext wd = .ok ctx →
      ∃ res, get_ai_suggestions env wd q lang af
        = (.ok ⟨maxIterationsMsg, lastResolved wd res⟩, ⟨3, [], res⟩)) := by
  constructor
  · cases hctx : mkWeatherContext wd with
    | error e =>
      unfold get_ai_suggestions
      rw [hctx]
      simp
    | ok ctx =>
      rw [get_ai_suggestions_ghost env wd q lang af ctx hctx]
      have := orchLoop_rounds_le env wd q lang 3 0 (initMessages ctx q lang) af wd ⟨0, [], []⟩
      simpa using this
  · intro haf H ctx hctx
    subst haf
    obtain ⟨newRes, hrun⟩ := orchLoop_always_tools env wd q lang H 3 0
      (initMessages ctx q lang) wd ⟨0, [], []⟩
    refine ⟨newRes, ?_⟩
    unfold get_ai_suggestions
    rw [hctx]
    dsimp only
    rw [hrun]
    rfl

/-- C1, witness for `C1_round_bound` against `alwaysToolEnv`: here the
resolved trace is three Tokyo snapshots and the returned snapshot is its
last entry. -/
theorem C1_witness :
    (get_ai_suggestions alwaysToolEnv none (some "hi") "en" true).2.rounds ≤ 3 ∧
    ∃ res, get_ai_suggestions alwaysToolEnv none (some "hi") "en" true
      = (.ok ⟨maxIterationsMsg, lastResolved none res⟩, ⟨3, [], res⟩) :=
  ⟨(C1_round_bound alwaysToolEnv none (some "hi") "en" true).1,
   (C1_round_bound alwaysToolEnv none (some "hi") "en" true).2 rfl
     (fun _ _ => rfl) "" rfl⟩

/-!  Claim C2 — what an escaping exception pairs the error text with. -/

/-- A model oracle that requests an Osaka tool call on the first round (the
message list still has 2 entries) and raises `boom` on every later round;
the weather oracle resolves Osaka successfully. -/
def failSecondEnv : Env :=
  ⟨fun _ msgs =>
    if msgs.length ≤ 2 then .success ⟨"", [⟨"call1", "get_weather", some "Osaka"⟩]⟩
    else .failure "boom",
   fun _ => .ok osakaWeather⟩

/-- C2, counterexample.  The claim says the caught failure is paired with
the most recently resolved snapshot, which may be one fetched during earlier
rounds of the same call.  Here round 1 resolves the Osaka snapshot (the
`resolved` trace reads `[osakaWeather]`), round 2 raises `boom`, and the
handler of source lines 453-457 pairs the error text with the `weather_data`
argument — the original Tokyo snapshot — not with the Osaka snapshot the
claim requires. -/
theorem C2_counterexample :
    get_ai_suggestions failSecondEnv (some fullWeather) (some "hi") "en" true
      = (.ok ⟨"Error getting AI suggestions: boom", some fullWeather⟩,
         ⟨2, [], [osakaWeather]⟩) ∧
    (some fullWeather : Option RawWeather) ≠ some osakaWeather :=
  ⟨rfl, by decide⟩

/-- C2, amended: when an exception escapes the round loop, the call does not
propagate it — it returns `Error getting AI suggestions: {error}` paired
with the snapshot that was passed in as the `weather_data` argument; the
snapshots resolved during earlier rounds of the same call are discarded, not
returned. -/
theorem C2_error_returns_original (env : Env) (wd : Option RawWeather)
    (q : Option String) (lang ctx : String) (af : Bool) (e : String) (g : Ghost)
    (hctx : mkWeatherContext wd = .ok ctx)
    (hloop : orchLoop env wd q lang 3 0 (initMessages ctx q lang) af wd ⟨0, [], []⟩
      = (.error e, g)) :
    get_ai_suggestions env wd q lang af
      = (.ok ⟨"Error getting AI suggestions: " ++ e, wd⟩, g) := by
  unfold get_ai_suggestions
  rw [hctx]
  dsimp only
  rw [hloop]

/-- C2, witness for `C2_error_returns_original` against `failSecondEnv` with
a null initial snapshot. -/
theorem C2_witness :
    get_ai_suggestions failSecondEnv none (some "hi") "en" true
      = (.ok ⟨"Error getting AI suggestions: boom", none⟩, ⟨2, [], [osakaWeather]⟩) :=
  C2_error_returns_original failSecondEnv none (some "hi") "en" "" true "boom"
    ⟨2, [], [osakaWeather]⟩ rfl rfl

/-!  Claim C3 — when the extractor fallback may run. -/

/-- A model oracle that requests an Osaka tool call on the first round and
answers with plain content `final` afterwards. -/
def toolThenPlainEnv : Env :=
  ⟨fun _ msgs =>
    if msgs.length ≤ 2 then .success ⟨"", [⟨"call1", "get_weather", some "Osaka"⟩]⟩
    else .success ⟨"final", []⟩,
   fun _ => .ok osakaWeather⟩

/-- C3, counterexample.  The claim says the extractor fallback runs only on
the first round and only if no query-scoped fetch has happened yet.  With a
null initial snapshot, round 1 performs a query-scoped tool fetch (the
`resolved` trace reads `[osakaWeather]`), yet on round 2 — index 1, not the
first round — the gate `user_query and (not weather_data or iteration == 0)`
of source line 387 still opens (`weather_data` is the unreassigned null
argument), and the extractor is invoked: the extractor trace reads `[1]`. -/
theorem C3_counterexample :
    get_ai_suggestions toolThenPlainEnv none (some "hi") "en" true
      = (.ok ⟨"final", some osakaWeather⟩, ⟨2, [1], [osakaWeather]⟩) ∧
    (1 : Nat) ≠ 0 :=
  ⟨rfl, by decide⟩

/-- C3, amended: the fallback gate is `user_query` truthy and (initial
snapshot argument null, or first round).  Hence only when the initial
snapshot is non-null is the extractor confined to the first round (where no
query-scoped fetch can have happened yet); with a null initial snapshot it
can run on later rounds, even after query-scoped fetches. -/
theorem C3_extractor_rounds (env : Env) (w : RawWeather) (q : Option String)
    (lang : String) (af : Bool) :
    ∀ i ∈ (get_ai_suggestions env (some w) q lang af).2.extractorCalls, i = 0 := by
  cases hctx : mkWeatherContext (some w) with
  | error e =>
    unfold get_ai_suggestions
    rw [hctx]
    intro i hi
    simp at hi
  | ok ctx =>
    rw [get_ai_suggestions_ghost env (some w) q lang af ctx hctx]
    exact orchLoop_extractor_zero env w q lang 3 0 (initMessages ctx q lang) af (some w)
      ⟨0, [], []⟩ (by simp)

/-- C3, witness for `C3_extractor_rounds`: with a non-null snapshot and a
model with no tool calls, the extractor runs exactly once, on round 0. -/
theorem C3_witness :
    (get_ai_suggestions plainEnv (some fullWeather) (some "hi") "en" true).2.extractorCalls
      = [0] ∧ (0 : Nat) = 0 :=
  ⟨rfl, C3_extractor_rounds plainEnv fullWeather (some "hi") "en" true 0 (by decide)⟩

/-!  Claim C4 — a failed tool fetch does not abort the round. -/

/-- C4: when the round-1 model response carries one `get_weather` tool call
whose fetch fails, the round is not aborted: the dispatch appends to the
message list a tool-result message tagged with the originating tool-call id
whose content is the error text (second conjunct), the running snapshot is
unchanged, and — the model then answering the extended list with plain
content — the call reaches its normal return with that content (first
conjunct), two rounds having been issued. -/
theorem C4_tool_failure_not_fatal (env : Env) (w0 : RawWeather) (q : Option String)
    (lang ctx m1c c2 cause : String) (tc : ToolCall)
    (hctx : mkWeatherContext (some w0) = .ok ctx)
    (h1 : env.model true (initMessages ctx q lang) = .success ⟨m1c, [tc]⟩)
    (hname : tc.name = "get_weather")
    (hfetch : env.fetchW tc.args_location = .error cause)
    (h2 : env.model true (initMessages ctx q lang ++ [.assistant ⟨m1c, [tc]⟩,
        .tool tc.id tc.name (toolErrStr tc.args_location
          (pyStrHTTP ⟨400, "Error fetching weather: " ++ cause⟩))]) = .success ⟨c2, []⟩) :
    get_ai_suggestions env (some w0) q lang true
      = (.ok ⟨c2, some w0⟩, ⟨2, [], []⟩) ∧
    execToolCalls env [tc] (initMessages ctx q lang ++ [.assistant ⟨m1c, [tc]⟩])
        (some w0) ⟨1, [], []⟩
      = ⟨(initMessages ctx q lang ++ [.assistant ⟨m1c, [tc]⟩]) ++
          [.tool tc.id tc.name (toolErrStr tc.args_location
            (pyStrHTTP ⟨400, "Error fetching weather: " ++ cause⟩))],
         some w0, ⟨1, [], []⟩⟩ := by
  have hexec : execToolCalls env [tc] (initMessages ctx q lang ++ [.assistant ⟨m1c, [tc]⟩])
      (some w0) ⟨1, [], []⟩
      = ⟨(initMessages ctx q lang ++ [.assistant ⟨m1c, [tc]⟩]) ++
          [.tool tc.id tc.name (toolErrStr tc.args_location
            (pyStrHTTP ⟨400, "Error fetching weather: " ++ cause⟩))],
         some w0, ⟨1, [], []⟩⟩ := by
    unfold execToolCalls
    rw [if_pos hname]
    unfold fetch_weather
    rw [hfetch]
    dsimp only
    rfl
  refine ⟨?_, hexec⟩
  have hms1 : modelStep env (initMessages ctx q lang) true = .ok (⟨m1c, [tc]⟩, true) := by
    unfold modelStep; simp [h1]
  have hms2 : modelStep env (initMessages ctx q lang ++ [.assistant ⟨m1c, [tc]⟩,
      .tool tc.id tc.name (toolErrStr tc.args_location
        (pyStrHTTP ⟨400, "Error fetching weather: " ++ cause⟩))]) true
      = .ok (⟨c2, []⟩, true) := by
    unfold modelStep; simp [h2]
  unfold get_ai_suggestions
  rw [hctx]
  dsimp only
  simp only [orchLoop, hms1]
  rw [if_pos ⟨(by simp : ([tc] : List ToolCall) ≠ []), by simp⟩]
  rw [hexec]
  simp only [List.append_assoc, List.cons_append, List.nil_append]
  simp [orchLoop, hms2, finalizeStep]

/-- A model oracle that requests a Paris tool call on the first round and
answers `done` afterwards, over a weather oracle that always fails. -/
def toolFailEnv : Env :=
  ⟨fun _ msgs =>
    if msgs.length ≤ 2 then .success ⟨"", [⟨"call1", "get_weather", some "Paris"⟩]⟩
    else .success ⟨"done", []⟩,
   fun _ => .error "connection refused"⟩

/-- The context block built from `fullWeather`. -/
def ctxFull : String :=
  "\nCurrent weather in Tokyo, Japan:\n- Temperature: 20°C (feels like 19°C)\n- Condition: Sunny\n- Humidity: 50%\n- Wind: 10 km/h\n- UV Index: 5\n- Precipitation: 0 mm\n- Local time: 2025-01-01 12:00\n"

/-- C4, witness for `C4_tool_failure_not_fatal` against `toolFailEnv`. -/
theorem C4_witness :
    get_ai_suggestions toolFailEnv (some fullWeather) none "en" true
      = (.ok ⟨"done", some fullWeather⟩, ⟨2, [], []⟩) ∧
    execToolCalls toolFailEnv [⟨"call1", "get_weather", some "Paris"⟩]
        (initMessages ctxFull none "en" ++
          [.assistant ⟨"", [⟨"call1", "get_weather", some "Paris"⟩]⟩])
        (some fullWeather) ⟨1, [], []⟩
      = ⟨(initMessages ctxFull none "en" ++
            [.assistant ⟨"", [⟨"call1", "get_weather", some "Paris"⟩]⟩]) ++
          [.tool "call1" "get_weather" (toolErrStr (some "Paris")
            (pyStrHTTP ⟨400, "Error fetching weather: " ++ "connection refused"⟩))],
         some fullWeather, ⟨1, [], []⟩⟩ :=
  C4_tool_failure_not_fatal toolFailEnv fullWeather none "en" ctxFull "" "done"
    "connection refused" ⟨"call1", "get_weather", some "Paris"⟩ rfl rfl rfl rfl rfl
